import Mathlib

/-!
Verification of the agent-execution and request-queue subsystem of the
jvlauncher repository (`src-tauri/src/ai/`): a shallow embedding of
`agent.rs`, `queue.rs`, `tools.rs` and the response handling of
`llm_client.rs`, together with theorems about the embedded definitions.

External collaborators (the HTTP transport, the SQLite store, the OS
process spawner, the JSON codec of the serde library) are modelled as
oracles supplied through an environment record; everything the repository
itself computes is embedded as executable Lean definitions.
-/

namespace JvLauncher

/-! ## String utilities

Predicate `listStartsWith l p` holds when `p` is a prefix of `l`;
`listContainsSub` scans for an occurrence of the pattern anywhere;
`containsSub` lifts the scan to `String`.  `split_whitespace` mirrors
Rust's `str::split_whitespace`: maximal runs of non-whitespace
characters, empty tokens dropped. -/

def listStartsWith : List Char → List Char → Bool
  | _, [] => true
  | [], _ :: _ => false
  | c :: cs, p :: ps => c == p && listStartsWith cs ps

def listContainsSub : List Char → List Char → Bool
  | [], pat => pat.isEmpty
  | c :: cs, pat => listStartsWith (c :: cs) pat || listContainsSub cs pat

def containsSub (s pat : String) : Bool :=
  listContainsSub s.data pat.data

def splitWsAux : List Char → List Char → List String
  | [], acc => if acc.isEmpty then [] else [String.mk acc.reverse]
  | c :: cs, acc =>
    if c.isWhitespace then
      if acc.isEmpty then splitWsAux cs [] else String.mk acc.reverse :: splitWsAux cs []
    else splitWsAux cs (c :: acc)

def split_whitespace (s : String) : List String :=
  splitWsAux s.data []

/-! ## Data model

Mirrors `database.rs` (`AISettings`, `AgentApp`) and `llm_client.rs`
(`ChatMessage`, `ToolDefinition`, tool-call and response shapes).
Machine integers (`i32`, `i64`) are modelled as `Int`; the JSON values of
the serde library are modelled by the inductive `Json`. -/

structure AISettings where
  enabled : Bool
  endpoint_url : String
  api_key : String
  default_model : Option String
  max_concurrent_agents : Int
  deriving Repr, DecidableEq

structure AgentApp where
  app_id : Int
  model : Option String
  prompt : String
  tool_notification : Bool
  tool_website_scrape : Bool
  tool_run_command : Bool
  website_url : Option String
  website_scrape_mode : Option String
  command : Option String
  deriving Repr, DecidableEq

structure ChatMessage where
  role : String
  content : String
  deriving Repr, DecidableEq

inductive Json where
  | null : Json
  | bool (b : Bool) : Json
  | num (n : Int) : Json
  | str (s : String) : Json
  | arr (elems : List Json) : Json
  | obj (fields : List (String × Json)) : Json

def Json.get : Json → String → Option Json
  | .obj fields, key => fields.lookup key
  | _, _ => none

def Json.as_str : Json → Option String
  | .str s => some s
  | _ => none

structure ToolDefinition where
  name : String
  description : String
  parameters : Json

structure ToolCallFunction where
  name : String
  arguments : String
  deriving Repr, DecidableEq

structure ToolCall where
  id : String
  tool_type : String
  function : ToolCallFunction
  deriving Repr, DecidableEq

structure ResponseMessage where
  role : String
  content : Option String
  tool_calls : Option (List ToolCall)
  deriving Repr, DecidableEq

structure Choice where
  message : ResponseMessage
  deriving Repr, DecidableEq

structure ChatCompletionResponse where
  choices : List Choice
  deriving Repr, DecidableEq

structure AIModel where
  id : String
  created : Option Int
  deriving Repr, DecidableEq

/-- Fixed `send_notification` tool of `ToolDefinition::notification()`. -/
def ToolDefinition.notification : ToolDefinition where
  name := "send_notification"
  description := "Send a notification to the user to inform them about important events, findings, or errors. ONLY use this tool when the user\x27s specified conditions are met or when there\x27s critical information to report. Do NOT send notifications for negative results unless explicitly requested. Examples: \x27Product is now in stock\x27, \x27Error: Unable to access the website\x27, \x27New article found matching your criteria\x27."
  parameters := Json.obj
    [("type", Json.str "object"),
     ("properties", Json.obj
       [("message", Json.obj
         [("type", Json.str "string"),
          ("description", Json.str "The notification message to display to the user. Should be clear, concise, and informative.")])]),
     ("required", Json.arr [Json.str "message"])]

/-- Fixed `run_command` tool of `ToolDefinition::run_command()`. -/
def ToolDefinition.run_command : ToolDefinition where
  name := "run_command"
  description := "Execute a system command and get its output. Use this when you need to perform actions or gather additional information by running commands. The command will be executed and you will receive its stdout, stderr, and exit code. You can run any valid system command."
  parameters := Json.obj
    [("type", Json.str "object"),
     ("properties", Json.obj
       [("command", Json.obj
         [("type", Json.str "string"),
          ("description", Json.str "The system command to execute (e.g., \x27ls -la\x27, \x27df -h\x27, \x27touch /path/to/file\x27)")])]),
     ("required", Json.arr [Json.str "command"])]

/-! ## External-effect oracles

Outcomes of the collaborators the `ai` module calls into: the SQLite
store, the web scraper, the OS process spawner, the serde JSON parser, and
the HTTP chat backend. -/

structure CmdOutput where
  stdout : String
  stderr : String
  exit_code : Option Int
  deriving Repr, DecidableEq

structure ChatRequest where
  model : String
  messages : List ChatMessage
  tools : Option (List ToolDefinition)

structure AgentEnv where
  scrape : String → Except String String
  run_process : String → List String → Except String CmdOutput
  create_notification : String → Except String Unit
  parse_args : String → Option Json
  serialize_messages : List ChatMessage → String
  chat : ChatRequest → Except String ChatCompletionResponse
  queue_id : Int

/-! ## Tool executor (`tools.rs`) -/

/-- Word-splitting step of `execute_run_command` (`tools.rs` line 52):
`command_str.split_whitespace()`, first token the program, rest the
arguments; zero tokens is the `Empty command` error. -/
def parse_command (command_str : String) : Option (String × List String) :=
  match split_whitespace command_str with
  | [] => none
  | program :: args => some (program, args)

/-- Labelled stdout/stderr/exit-code report of `execute_run_command`
(`tools.rs` lines 68-77). -/
def command_report (output : CmdOutput) : String :=
  (if output.stdout = "" then "" else "STDOUT:\n" ++ output.stdout ++ "\n")
    ++ (if output.stderr = "" then "" else "STDERR:\n" ++ output.stderr ++ "\n")
    ++ (match output.exit_code with
        | some code => "Exit code: " ++ toString code ++ "\n"
        | none => "")

/-- Embeds `execute_notification` (`tools.rs` lines 21-30). -/
def execute_notification (env : AgentEnv) (arguments : Json) : Except String String :=
  match (arguments.get "message").bind Json.as_str with
  | none => .error "Missing \x27message\x27 argument"
  | some message =>
    match env.create_notification message with
    | .ok _ => .ok ("Notification sent: " ++ message)
    | .error e => .error e

/-- Embeds `execute_scrape_website` (`tools.rs` lines 33-42). -/
def execute_scrape_website (env : AgentEnv) (arguments : Json) : Except String String :=
  match (arguments.get "url").bind Json.as_str with
  | none => .error "Missing \x27url\x27 argument"
  | some url =>
    match env.scrape url with
    | .ok content => .ok ("Website content from " ++ url ++ ":\n\n" ++ content)
    | .error e => .error e

/-- Embeds `execute_run_command` (`tools.rs` lines 45-80). -/
def execute_run_command (env : AgentEnv) (arguments : Json) : Except String String :=
  match (arguments.get "command").bind Json.as_str with
  | none => .error "Missing \x27command\x27 argument"
  | some command_str =>
    match parse_command command_str with
    | none => .error "Empty command"
    | some (program, args) =>
      match env.run_process program args with
      | .error e => .error ("Failed to execute command: " ++ e)
      | .ok output => .ok (command_report output)

/-- Embeds `execute_tool` (`tools.rs` lines 7-18): dispatch on the tool
name. -/
def execute_tool (env : AgentEnv) (tool_name : String) (arguments : Json) : Except String String :=
  if tool_name = "send_notification" then execute_notification env arguments
  else if tool_name = "scrape_website" then execute_scrape_website env arguments
  else if tool_name = "run_command" then execute_run_command env arguments
  else .error ("Unknown tool: " ++ tool_name)

/-! ## Chat client response handling (`llm_client.rs`)

The HTTP transport and JSON decoding are collaborator effects; the
embedding covers what the repository does with a received response:
status check and error-message construction. -/

structure HttpResponse where
  status : Nat
  body : String
  deriving Repr, DecidableEq

/-- Status check `reqwest::StatusCode::is_success()`: the 2xx range. -/
def status_is_success (status : Nat) : Bool :=
  200 ≤ status && status < 300

/-- Response handling of `fetch_models_from_endpoint` (`llm_client.rs`
lines 108-129): a non-2xx status yields an error naming only the status
code; a 2xx body is decoded into the model list. -/
def fetch_models_from_endpoint_result (resp : HttpResponse)
    (decode : String → Option (List AIModel)) : Except String (List AIModel) :=
  if status_is_success resp.status then
    match decode resp.body with
    | some models => .ok models
    | none => .error "JSON decode error"
  else
    .error ("Failed to fetch models: " ++ toString resp.status)

/-- Response handling of `chat_completion` (`llm_client.rs` lines
178-192): a non-2xx status consumes the response body and reports it
alongside the status code. -/
def chat_completion_result (resp : HttpResponse)
    (decode : String → Option ChatCompletionResponse) : Except String ChatCompletionResponse :=
  if status_is_success resp.status then
    match decode resp.body with
    | some completion => .ok completion
    | none => .error "JSON decode error"
  else
    .error ("Failed to get chat completion: " ++ toString resp.status ++ " - " ++ resp.body)

/-! ## Agent orchestrator (`agent.rs`)

`execute_agent` is embedded as a function of the environment, the global
settings and the agent row.  Besides the returned `Result`, the embedding
records the queue-status writes, the chat requests issued, and the
pre-execution side effects, so theorems can speak about what the run did,
not only what it returned. -/

/-- Bullet `• send_notification(...)` pushed at `agent.rs` line 31. -/
def notification_desc : String :=
  "• send_notification(message: string) - Send a notification ONLY when user\x27s conditions are met or critical info needs reporting"

/-- Bullet `• run_command(...)` pushed at `agent.rs` line 36. -/
def run_command_desc : String :=
  "• run_command(command: string) - Execute a system command and get its output"

/-- NOTIFICATION usage-instruction block (`agent.rs` lines 53-59). -/
def notification_usage : String :=
  "NOTIFICATION: Use send_notification ONLY when the user\x27s specified conditions are met or when there\x27s critical information to report.\n"
    ++ "DO NOT send notifications for negative results (e.g., \x27product not available\x27, \x27no changes found\x27) unless the user explicitly asks for them.\n"
    ++ "Examples of when to send notifications:\n"
    ++ "  - User says \x27notify if product is available\x27 AND product IS available → send_notification(\x7b\"message\": \"Product is now in stock!\"\x7d)\n"
    ++ "  - User says \x27notify if product is available\x27 AND product is NOT available → DO NOT send notification\n"
    ++ "  - User says \x27check website and notify me\x27 → send_notification with findings (always notify)\n"
    ++ "  - Error occurs → send_notification(\x7b\"message\": \"Error: Unable to access the website\"\x7d)\n\n"

/-- RUN COMMAND usage-instruction block (`agent.rs` lines 63-69). -/
def run_command_usage : String :=
  "RUN COMMAND: Use run_command to execute system commands when you need to perform actions or gather additional information.\n"
    ++ "You can run any valid system command. The command will be executed and you will receive its stdout, stderr, and exit code.\n"
    ++ "Examples of when to use run_command:\n"
    ++ "  - User says \x27create a file\x27 → run_command(\x7b\"command\": \"touch /path/to/file\"\x7d)\n"
    ++ "  - User says \x27check disk space\x27 → run_command(\x7b\"command\": \"df -h\"\x7d)\n"
    ++ "  - User says \x27list files\x27 → run_command(\x7b\"command\": \"ls -la\"\x7d)\n"
    ++ "  - Need to gather system information → run_command with appropriate command\n\n"

/-- Closing IMPORTANT line (`agent.rs` line 72). -/
def important_line : String :=
  "IMPORTANT: Only use tools when necessary to fulfill the user\x27s request or when there\x27s critical information to report!\n"

/-- Tool definitions collected at `agent.rs` lines 26-37: one per enabled
capability flag, in push order. -/
def tool_definitions_for (agent : AgentApp) : List ToolDefinition :=
  (if agent.tool_notification then [ToolDefinition.notification] else [])
    ++ (if agent.tool_run_command then [ToolDefinition.run_command] else [])

/-- Tool-description bullets collected alongside the definitions. -/
def tool_descriptions_for (agent : AgentApp) : List String :=
  (if agent.tool_notification then [notification_desc] else [])
    ++ (if agent.tool_run_command then [run_command_desc] else [])

/-- System-prompt assembly (`agent.rs` lines 22-73): the base prompt,
then — only when at least one tool is enabled — the AVAILABLE TOOLS
section, the usage-instruction blocks of the enabled tools, and the
closing IMPORTANT line. -/
def build_system_prompt (agent : AgentApp) : String :=
  let tool_descriptions := tool_descriptions_for agent
  if tool_descriptions.isEmpty then agent.prompt
  else
    agent.prompt ++ "\n\n=== AVAILABLE TOOLS ===\n"
      ++ String.join (tool_descriptions.map (fun desc => desc ++ "\n"))
      ++ "\n=== TOOL USAGE INSTRUCTIONS ===\n"
      ++ (if agent.tool_notification then notification_usage else "")
      ++ (if agent.tool_run_command then run_command_usage else "")
      ++ important_line

/-- Pre-execution side effects of an agent run, in occurrence order. -/
inductive AgentEffect where
  | scraped (url : String)
  | ranInputCommand (program : String) (args : List String)
  deriving Repr, DecidableEq

/-- Queue-status writes performed through the queue manager during a run
(`add_queue_item` row insert and `update_queue_item_status` updates). -/
inductive QueueEvent where
  | enqueued (id : Int) (message : String)
  | started (id : Int)
  | completed (id : Int) (response : String)
  | failed (id : Int) (error : String)
  deriving Repr, DecidableEq

def QueueEvent.isTerminal : QueueEvent → Bool
  | .completed _ _ => true
  | .failed _ _ => true
  | _ => false

def QueueEvent.isStarted : QueueEvent → Bool
  | .started _ => true
  | _ => false

/-- Website pre-scrape (`agent.rs` lines 82-97): only when
`tool_website_scrape` is set and a URL is present; a scrape failure is
swallowed (logged) and contributes no message. -/
def scrape_context_messages (env : AgentEnv) (agent : AgentApp) :
    List ChatMessage × List AgentEffect :=
  if agent.tool_website_scrape then
    match agent.website_url with
    | some url =>
      match env.scrape url with
      | .ok content =>
        ([⟨"user", "Please analyze the following website content from " ++ url ++ ":\n\n" ++ content⟩],
         [.scraped url])
      | .error _ => ([], [.scraped url])
    | none => ([], [])
  else ([], [])

/-- Input-command pre-execution (`agent.rs` lines 99-141): whenever the
`command` field is present, it is split on whitespace and run; both the
success report and the failure text become a `user` message. -/
def input_command_messages (env : AgentEnv) (agent : AgentApp) :
    List ChatMessage × List AgentEffect :=
  match agent.command with
  | none => ([], [])
  | some cmd =>
    match split_whitespace cmd with
    | [] => ([], [])
    | program :: args =>
      match env.run_process program args with
      | .ok output =>
        ([⟨"user", "Input command execution result for \x27" ++ cmd ++ "\x27:\n\n" ++ command_report output⟩],
         [.ranInputCommand program args])
      | .error e =>
        ([⟨"user", "Error executing input command \x27" ++ cmd ++ "\x27: " ++ e⟩],
         [.ranInputCommand program args])

/-- One tool call of the first response turned into its `tool`-role
message (`agent.rs` lines 198-222): arguments parsed leniently (malformed
JSON becomes the empty object), then `execute_tool`, success text or
`Error: ...` on failure. -/
def tool_result_message (env : AgentEnv) (tc : ToolCall) : ChatMessage :=
  let arguments := (env.parse_args tc.function.arguments).getD (Json.obj [])
  match execute_tool env tc.function.name arguments with
  | .ok result => ⟨"tool", result⟩
  | .error e => ⟨"tool", "Error: " ++ e⟩

/-- Everything `execute_agent` did: the returned `Result`, the queue
writes, the chat requests issued, and the pre-execution effects. -/
structure AgentRun where
  result : Except String String
  queue_events : List QueueEvent
  chat_requests : List ChatRequest
  effects : List AgentEffect

/-- Tool-call continuation of `execute_agent` (`agent.rs` lines 196-244):
execute the requested tools, extend the first call\x27s message list with
one assistant message and the tool results, and issue the second chat
call with no tools.  Note the second call\x27s failure is propagated by
`?` without a queue-status write. -/
def tool_branch (env : AgentEnv) (model : String) (messages : List ChatMessage)
    (qid : Int) (ev1 : List QueueEvent) (effects : List AgentEffect)
    (req1 : ChatRequest) (choice : Choice) (tool_calls : List ToolCall) : AgentRun :=
  let tool_results := tool_calls.map (tool_result_message env)
  let final_messages :=
    messages ++ [ChatMessage.mk "assistant" (choice.message.content.getD "")] ++ tool_results
  let req2 : ChatRequest := ⟨model, final_messages, none⟩
  match env.chat req2 with
  | .error e => ⟨.error e, ev1, [req1, req2], effects⟩
  | .ok final_response =>
    match final_response.choices.head? with
    | none =>
      ⟨.error "No response from LLM", ev1 ++ [.failed qid "No response from LLM"],
       [req1, req2], effects⟩
    | some final_choice =>
      let final_content := final_choice.message.content.getD ""
      ⟨.ok final_content, ev1 ++ [.completed qid final_content], [req1, req2], effects⟩

/-- Embeds `execute_agent` (`agent.rs` lines 7-256).  The busy-wait for a
free slot (lines 149-151) is timing only and adds no state change; the
queue manager\x27s durable writes appear as `QueueEvent`s. -/
def execute_agent (env : AgentEnv) (settings : AISettings) (agent : AgentApp) : AgentRun :=
  if !settings.enabled then
    ⟨.error "AI features are not enabled", [], [], []⟩
  else
    match (match agent.model with
           | some m => some m
           | none => settings.default_model) with
    | none => ⟨.error "No model specified and no default model set", [], [], []⟩
    | some model =>
      let system_prompt := build_system_prompt agent
      let tool_definitions := tool_definitions_for agent
      let scrape_part := scrape_context_messages env agent
      let cmd_part := input_command_messages env agent
      let messages := ChatMessage.mk "system" system_prompt :: (scrape_part.1 ++ cmd_part.1)
      let effects := scrape_part.2 ++ cmd_part.2
      let qid := env.queue_id
      let ev1 := [QueueEvent.enqueued qid (env.serialize_messages messages),
                  QueueEvent.started qid]
      let api_tools := if tool_definitions.isEmpty then none else some tool_definitions
      let req1 : ChatRequest := ⟨model, messages, api_tools⟩
      match env.chat req1 with
      | .error e =>
        ⟨.error e, ev1 ++ [.failed qid ("LLM request failed: " ++ e)], [req1], effects⟩
      | .ok response =>
        match response.choices.head? with
        | none =>
          ⟨.error "No choices in response", ev1 ++ [.failed qid "No choices in response"],
           [req1], effects⟩
        | some choice =>
          match choice.message.tool_calls with
          | some tool_calls =>
            tool_branch env model messages qid ev1 effects req1 choice tool_calls
          | none =>
            let content := choice.message.content.getD ""
            ⟨.ok content, ev1 ++ [.completed qid content], [req1], effects⟩

/-! ## Queue manager in-memory state (`queue.rs` lines 7-94)

The durable row writes are covered by `QueueEvent`; this model covers the
in-memory counters and FIFO, driven by sequential (non-interleaved)
operation traces. -/

structure QueueState where
  max_concurrent : Int
  current_running : Int
  pending_queue : List Int
  deriving Repr, DecidableEq

/-- Constructor `QueueManager::new` (`queue.rs` lines 15-22). -/
def QueueState.init (max : Int) : QueueState :=
  ⟨max, 0, []⟩

/-- Embeds `can_process` (`queue.rs` lines 51-55). -/
def can_process (s : QueueState) : Bool :=
  s.current_running < s.max_concurrent

inductive QueueOp where
  | enqueue (id : Int)
  | start (id : Int)
  | complete (id : Int)
  | fail (id : Int)
  deriving Repr, DecidableEq

/-- One queue-manager call on the in-memory state: `enqueue` appends to
the pending FIFO only when at capacity (lines 30-48), `start_processing`
increments the running counter (lines 58-62), `complete` and `fail`
decrement it and discard the FIFO head (lines 65-84). -/
def queue_step (s : QueueState) : QueueOp → QueueState
  | .enqueue id =>
    if can_process s then s else { s with pending_queue := s.pending_queue ++ [id] }
  | .start _ => { s with current_running := s.current_running + 1 }
  | .complete _ =>
    { s with current_running := s.current_running - 1, pending_queue := s.pending_queue.tail }
  | .fail _ =>
    { s with current_running := s.current_running - 1, pending_queue := s.pending_queue.tail }

def queue_run (s : QueueState) (ops : List QueueOp) : QueueState :=
  ops.foldl queue_step s

/-- Every state the trace passes through, the initial one included. -/
def states_of (s : QueueState) : List QueueOp → List QueueState
  | [] => [s]
  | op :: rest => s :: states_of (queue_step s op) rest

/-- Trace discipline of the claim: each `start_processing` call is
immediately preceded by a `can_process` call that returned `true`. -/
def gated (s : QueueState) : List QueueOp → Bool
  | [] => true
  | op :: rest =>
    (match op with
     | .start _ => can_process s
     | _ => true) && gated (queue_step s op) rest

/-- Matching discipline `well_matched c ops`: with `c` requests currently
running, every `complete`/`fail` in the trace has a running request to
finish — i.e. decrements are matched by earlier unfinished
`start_processing` calls. -/
def well_matched (c : Int) : List QueueOp → Bool
  | [] => true
  | op :: rest =>
    match op with
    | .enqueue _ => well_matched c rest
    | .start _ => well_matched (c + 1) rest
    | .complete _ => if 1 ≤ c then well_matched (c - 1) rest else false
    | .fail _ => if 1 ≤ c then well_matched (c - 1) rest else false

/-! ## Global queue-manager cell (`queue.rs` lines 96-116)

The `OnceLock<Arc<Mutex<Option<Arc<QueueManager>>>>>` is modelled as
`Option (Option Unit)`: the outer layer is the once-cell (set or not),
the inner the `Option` holding the manager. -/

structure GlobalCell where
  cell : Option (Option Unit)
  deriving Repr, DecidableEq

/-- Embeds `get_queue_manager` (`queue.rs` lines 106-116): seeds the cell
with an empty holder when unset, then reads the inner `Option`. -/
def get_queue_manager : GlobalCell → Except String Unit × GlobalCell
  | ⟨none⟩ => (.error "Queue manager not initialized", ⟨some none⟩)
  | ⟨some none⟩ => (.error "Queue manager not initialized", ⟨some none⟩)
  | ⟨some (some m)⟩ => (.ok m, ⟨some (some m)⟩)

/-- Embeds `init_queue_manager` (`queue.rs` lines 100-103): `get_or_init`
with a full holder — a no-op whenever the cell is already set, whatever
the inner `Option` holds. -/
def init_queue_manager : GlobalCell → GlobalCell
  | ⟨none⟩ => ⟨some (some ())⟩
  | ⟨some inner⟩ => ⟨some inner⟩

inductive CellOp where
  | get
  | init
  deriving Repr, DecidableEq

def run_cell (s : GlobalCell) : List CellOp → GlobalCell
  | [] => s
  | .get :: rest => run_cell (get_queue_manager s).2 rest
  | .init :: rest => run_cell (init_queue_manager s) rest

/-! ## Concrete fixtures used by counterexamples and witnesses -/

def settingsOn : AISettings := ⟨true, "http://localhost", "", some "model-a", 1⟩

def settingsOff : AISettings := ⟨false, "http://localhost", "", some "model-a", 1⟩

/-- First-call response carrying one `send_notification` tool call whose
arguments string is not valid JSON. -/
def respWithToolCall : ChatCompletionResponse :=
  ⟨[⟨⟨"assistant", some "working on it",
      some [⟨"call_1", "function", ⟨"send_notification", "\x7bnot valid json\x7d"⟩⟩]⟩⟩]⟩

/-- Environment where the first chat call (tools attached) succeeds with
a tool call and the second chat call (no tools) fails in transport. -/
def envC1 : AgentEnv where
  scrape := fun _ => .error "no network"
  run_process := fun _ _ => .error "spawn disabled"
  create_notification := fun _ => .ok ()
  parse_args := fun _ => none
  serialize_messages := fun _ => ""
  chat := fun req =>
    match req.tools with
    | some _ => .ok respWithToolCall
    | none => .error "connection reset"
  queue_id := 1

def agentC1 : AgentApp :=
  ⟨1, some "model-a", "Watch the shop.", true, false, false, none, none, none⟩

/-- Environment whose process spawner succeeds, for observing the input
command being executed. -/
def envC4 : AgentEnv where
  scrape := fun _ => .error "no network"
  run_process := fun _ _ => .ok ⟨"root\n", "", some 0⟩
  create_notification := fun _ => .ok ()
  parse_args := fun _ => none
  serialize_messages := fun _ => ""
  chat := fun _ => .error "backend down"
  queue_id := 2

/-- Agent with every capability flag off but a configured `command`. -/
def agentC4 : AgentApp :=
  ⟨2, some "model-a", "base", false, false, false, none, none, some "whoami"⟩

/-- Benign environment for witnesses; its JSON parser always fails. -/
def envW : AgentEnv where
  scrape := fun _ => .error "offline"
  run_process := fun program args => .ok ⟨String.intercalate " " (program :: args) ++ "\n", "", some 0⟩
  create_notification := fun _ => .ok ()
  parse_args := fun _ => none
  serialize_messages := fun _ => ""
  chat := fun _ => .error "offline"
  queue_id := 9

/-- Environment whose process spawner echoes the exact argv it was given,
separated by `|`, so theorems can exhibit what was executed. -/
def envProbe : AgentEnv where
  scrape := fun _ => .error "offline"
  run_process := fun program args => .ok ⟨String.intercalate "|" (program :: args), "", some 0⟩
  create_notification := fun _ => .ok ()
  parse_args := fun _ => none
  serialize_messages := fun _ => ""
  chat := fun _ => .error "offline"
  queue_id := 3

def agentW4 : AgentApp :=
  ⟨3, some "model-a", "base", false, false, true, none, none, some "uptime"⟩

def agentN4 : AgentApp :=
  ⟨4, some "model-a", "base", true, false, false, none, none, none⟩

/-- Agent with `run_command` enabled and a command value that appears
nowhere in the hard-coded prompt text. -/
def agentC5 : AgentApp :=
  ⟨5, some "model-a", "", false, false, true, none, none, some "uname -zz"⟩

def agentW5 : AgentApp :=
  ⟨6, none, "base", false, false, true, none, none, some "df -h"⟩

def agentOffW : AgentApp :=
  ⟨7, none, "base prompt", false, false, false, none, none, some "df -h"⟩

def tcC8 : ToolCall :=
  ⟨"call_1", "function", ⟨"send_notification", "\x7bnot valid json\x7d"⟩⟩

def decodeNoModels : String → Option (List AIModel) := fun _ => none

def decodeNoChat : String → Option ChatCompletionResponse := fun _ => none

def opsW : List QueueOp :=
  [.enqueue 1, .start 1, .complete 1, .enqueue 2, .start 2, .fail 2]

/-! ## Helper lemmas -/

theorem listStartsWith_nil_pat (l : List Char) : listStartsWith l [] = true := by
  cases l <;> rfl

theorem listContainsSub_nil_pat (l : List Char) : listContainsSub l [] = true := by
  cases l with
  | nil => rfl
  | cons c cs => simp [listContainsSub, listStartsWith_nil_pat]

theorem listStartsWith_append (m : List Char) :
    ∀ (l p : List Char), listStartsWith l p = true → listStartsWith (l ++ m) p = true := by
  intro l p
  induction p generalizing l with
  | nil => intro _; exact listStartsWith_nil_pat _
  | cons q qs ih =>
    intro h
    cases l with
    | nil => simp [listStartsWith] at h
    | cons c cs =>
      simp only [listStartsWith, Bool.and_eq_true] at h ⊢
      exact ⟨h.1, ih cs h.2⟩

theorem listContainsSub_append_right (a : List Char) :
    ∀ (b p : List Char), listContainsSub b p = true → listContainsSub (a ++ b) p = true := by
  intro b p h
  induction a with
  | nil => simpa using h
  | cons c cs ih =>
    simp only [List.cons_append, listContainsSub, Bool.or_eq_true]
    exact Or.inr ih

theorem listContainsSub_append_left (b : List Char) :
    ∀ (a p : List Char), listContainsSub a p = true → listContainsSub (a ++ b) p = true := by
  intro a p h
  induction a with
  | nil =>
    cases p with
    | nil => exact listContainsSub_nil_pat _
    | cons q qs => simp [listContainsSub, List.isEmpty] at h
  | cons c cs ih =>
    simp only [listContainsSub, Bool.or_eq_true] at h
    simp only [List.cons_append, listContainsSub, Bool.or_eq_true]
    cases h with
    | inl h => exact Or.inl (listStartsWith_append b _ p h)
    | inr h => exact Or.inr (ih h)

theorem strData_append (a b : String) : (a ++ b).data = a.data ++ b.data := rfl

theorem containsSub_append_right (a b p : String) :
    containsSub b p = true → containsSub (a ++ b) p = true := by
  intro h
  unfold containsSub at h ⊢
  rw [strData_append]
  exact listContainsSub_append_right a.data b.data p.data h

theorem containsSub_append_left (a b p : String) :
    containsSub a p = true → containsSub (a ++ b) p = true := by
  intro h
  unfold containsSub at h ⊢
  rw [strData_append]
  exact listContainsSub_append_left b.data a.data p.data h

/-- Inductive invariant for the queue counters: along any gated and
well-matched trace, `current_running` stays within `[0, max_concurrent]`
at every intermediate state. -/
theorem queue_invariant_aux : ∀ (ops : List QueueOp) (s : QueueState),
    gated s ops = true → well_matched s.current_running ops = true →
    0 ≤ s.current_running → s.current_running ≤ s.max_concurrent →
    ∀ t ∈ states_of s ops, 0 ≤ t.current_running ∧ t.current_running ≤ t.max_concurrent := by
  intro ops
  induction ops with
  | nil =>
    intro s _ _ h0 h1 t ht
    simp only [states_of, List.mem_singleton] at ht
    subst ht
    exact ⟨h0, h1⟩
  | cons op rest ih =>
    intro s hg hm h0 h1 t ht
    simp only [gated, Bool.and_eq_true] at hg
    simp only [states_of, List.mem_cons] at ht
    cases ht with
    | inl h => subst h; exact ⟨h0, h1⟩
    | inr h =>
      cases op with
      | enqueue id =>
        have hc : (queue_step s (QueueOp.enqueue id)).current_running = s.current_running := by
          simp only [queue_step]
          split <;> rfl
        have hx : (queue_step s (QueueOp.enqueue id)).max_concurrent = s.max_concurrent := by
          simp only [queue_step]
          split <;> rfl
        refine ih (queue_step s (.enqueue id)) hg.2 ?_ ?_ ?_ t h
        · rw [hc]; simpa [well_matched] using hm
        · rw [hc]; exact h0
        · rw [hc, hx]; exact h1
      | start id =>
        have hlt : s.current_running < s.max_concurrent := by
          have := hg.1
          simpa [can_process] using this
        refine ih (queue_step s (.start id)) hg.2 ?_ ?_ ?_ t h
        · simpa [queue_step, well_matched] using hm
        · simp only [queue_step]; omega
        · simp only [queue_step]; omega
      | complete id =>
        simp only [well_matched] at hm
        split at hm
        · rename_i hge
          refine ih (queue_step s (.complete id)) hg.2 ?_ ?_ ?_ t h
          · simpa [queue_step] using hm
          · simp only [queue_step]; omega
          · simp only [queue_step]; omega
        · exact absurd hm (by simp)
      | fail id =>
        simp only [well_matched] at hm
        split at hm
        · rename_i hge
          refine ih (queue_step s (.fail id)) hg.2 ?_ ?_ ?_ t h
          · simpa [queue_step] using hm
          · simp only [queue_step]; omega
          · simp only [queue_step]; omega
        · exact absurd hm (by simp)

/-- Once the global cell holds the empty holder, no sequence of further
`get`/`init` calls changes it. -/
theorem run_cell_empty_holder : ∀ ops : List CellOp, run_cell ⟨some none⟩ ops = ⟨some none⟩ := by
  intro ops
  induction ops with
  | nil => rfl
  | cons op rest ih => cases op <;> simpa [run_cell, get_queue_manager, init_queue_manager] using ih

/-! ## Claim theorems -/

/-- C1: with the first chat response carrying a tool call and the second
chat-completion call failing in transport, `execute_agent` propagates the
error to the caller while writing NO terminal queue status: the item was
marked `processing` (`started`) and is never marked `failed`, so the
persisted queue state and the caller\x27s `Result` diverge on this path
(`agent.rs` line 234 propagates with `?` and skips `queue_manager.fail`,
unlike every other terminus). -/
theorem c1_second_call_failure_leaves_processing :
    (execute_agent envC1 settingsOn agentC1).result = .error "connection reset"
    ∧ (execute_agent envC1 settingsOn agentC1).queue_events =
        [QueueEvent.enqueued 1 "", QueueEvent.started 1]
    ∧ ((execute_agent envC1 settingsOn agentC1).queue_events.filter QueueEvent.isTerminal) = [] :=
  ⟨rfl, rfl, rfl⟩

/-- C2 counterexample: the claim\x27s trace class constrains only the
`start_processing` calls, so the gated trace
`[enqueue 1, start 1, fail 1, fail 1]` (the item failed twice) is
admitted, yet it drives `current_running` to `-1`: the conjunct
"never goes negative" is false as stated. -/
theorem c2_gated_trace_reaches_negative :
    gated (QueueState.init 1) [QueueOp.enqueue 1, QueueOp.start 1, QueueOp.fail 1, QueueOp.fail 1] = true
    ∧ (queue_run (QueueState.init 1)
        [QueueOp.enqueue 1, QueueOp.start 1, QueueOp.fail 1, QueueOp.fail 1]).current_running = -1 := by
  decide

/-- C2 (amended): `can_process` is true iff `current_running <
max_concurrent`; `start_processing` increments the counter and
`complete`/`fail` decrement it while `enqueue` leaves it unchanged; and
for every sequential trace in which each `start_processing` is
immediately preceded by a `can_process` call returning true AND each
`complete`/`fail` finishes a previously started, still-running request
(`well_matched`), starting from a construction with `0 ≤ max_concurrent`,
`current_running` never exceeds `max_concurrent` and never goes
negative. -/
theorem c2_admission_cap_bounds :
    (∀ s : QueueState, can_process s = true ↔ s.current_running < s.max_concurrent)
    ∧ (∀ (s : QueueState) (id : Int),
        (queue_step s (QueueOp.start id)).current_running = s.current_running + 1)
    ∧ (∀ (s : QueueState) (id : Int),
        (queue_step s (QueueOp.complete id)).current_running = s.current_running - 1)
    ∧ (∀ (s : QueueState) (id : Int),
        (queue_step s (QueueOp.fail id)).current_running = s.current_running - 1)
    ∧ (∀ (s : QueueState) (id : Int),
        (queue_step s (QueueOp.enqueue id)).current_running = s.current_running)
    ∧ (∀ (max : Int) (ops : List QueueOp), 0 ≤ max →
        gated (QueueState.init max) ops = true → well_matched 0 ops = true →
        ∀ t ∈ states_of (QueueState.init max) ops,
          0 ≤ t.current_running ∧ t.current_running ≤ t.max_concurrent) := by
  refine ⟨?_, fun s id => rfl, fun s id => rfl, fun s id => rfl, ?_, ?_⟩
  · intro s
    simp [can_process]
  · intro s id
    simp only [queue_step]
    split <;> rfl
  · intro max ops hmax hg hm
    exact queue_invariant_aux ops (QueueState.init max) hg hm le_rfl hmax

/-- C2 witness: the hypotheses of the amended bound are satisfiable — a
gated, well-matched trace of two sequential requests under
`max_concurrent = 1` keeps the counter within bounds. -/
theorem c2_admission_cap_bounds_witness :
    (can_process (QueueState.init 1) = true ↔ (0 : Int) < 1)
    ∧ 0 ≤ (1 : Int)
    ∧ gated (QueueState.init 1) opsW = true
    ∧ well_matched 0 opsW = true
    ∧ 0 ≤ (queue_run (QueueState.init 1) opsW).current_running
    ∧ (queue_run (QueueState.init 1) opsW).current_running
        ≤ (queue_run (QueueState.init 1) opsW).max_concurrent :=
  ⟨c2_admission_cap_bounds.1 (QueueState.init 1), by decide, by decide, by decide,
   (c2_admission_cap_bounds.2.2.2.2.2 1 opsW (by decide) (by decide) (by decide)
      (queue_run (QueueState.init 1) opsW) (by decide)).1,
   (c2_admission_cap_bounds.2.2.2.2.2 1 opsW (by decide) (by decide) (by decide)
      (queue_run (QueueState.init 1) opsW) (by decide)).2⟩

/-- C3 counterexample: `execute_run_command` splits with
`split_whitespace`, which does not honor quotes — for the command string
`echo "hello world"` the argument list is `["\"hello", "world\""]`, not
the claimed `["hello world"]`. -/
theorem c3_quoted_split_fails :
    parse_command "echo \"hello world\"" ≠ some ("echo", ["hello world"])
    ∧ parse_command "echo \"hello world\"" = some ("echo", ["\"hello", "world\""]) := by
  decide

/-- C3 (amended): `execute_run_command` splits the command string on
whitespace only — quotes and backslashes are ordinary characters — and
performs no shell interpretation (`$HOME` and `*` stay literal); the
program is the first token and the exact argv reaches the process
spawner. -/
theorem c3_whitespace_split :
    parse_command "echo \"hello world\"" = some ("echo", ["\"hello", "world\""])
    ∧ parse_command "echo $HOME *" = some ("echo", ["$HOME", "*"])
    ∧ parse_command "   " = none
    ∧ execute_run_command envProbe (Json.obj [("command", Json.str "echo \"hello world\"")])
        = .ok "STDOUT:\necho|\"hello|world\"\nExit code: 0\n" :=
  ⟨by decide, by decide, by decide, rfl⟩

set_option maxRecDepth 4000 in
/-- C4 counterexample: with every capability flag false but `command`
configured, `execute_agent` still executes the configured command as
pre-execution input and mentions it in a conversation message —
refuting the claim that a false `tool_run_command` prevents execution
and mention of the `command` value. -/
theorem c4_command_executed_despite_flag_off :
    agentC4.tool_run_command = false
    ∧ agentC4.tool_website_scrape = false
    ∧ (execute_agent envC4 settingsOn agentC4).effects =
        [AgentEffect.ranInputCommand "whoami" []]
    ∧ ((execute_agent envC4 settingsOn agentC4).chat_requests.any
        (fun r => r.messages.any (fun m => containsSub m.content "whoami"))) = true :=
  ⟨rfl, rfl, rfl, rfl⟩

/-- C4 (amended): a false capability flag keeps the corresponding tool
definition out of the tool set sent to the model, and a false
`tool_website_scrape` suppresses the website scrape entirely; but the
configured `command` value is executed as pre-execution input whenever it
is present, regardless of any capability flag. -/
theorem c4_capability_gating :
    (∀ a : AgentApp, a.tool_notification = false →
        ∀ d ∈ tool_definitions_for a, d.name ≠ "send_notification")
    ∧ (∀ a : AgentApp, a.tool_run_command = false →
        ∀ d ∈ tool_definitions_for a, d.name ≠ "run_command")
    ∧ (∀ (env : AgentEnv) (a : AgentApp), a.tool_website_scrape = false →
        scrape_context_messages env a = ([], []))
    ∧ (∀ (env : AgentEnv) (a : AgentApp) (cmd program : String) (args : List String),
        a.command = some cmd → split_whitespace cmd = program :: args →
        AgentEffect.ranInputCommand program args ∈ (input_command_messages env a).2) := by
  refine ⟨?_, ?_, ?_, ?_⟩
  · intro a h d hd
    by_cases hr : a.tool_run_command
    · simp only [tool_definitions_for, h, if_false, hr, if_true, List.nil_append,
        List.mem_singleton, Bool.false_eq_true] at hd
      subst hd
      decide
    · simp [tool_definitions_for, h, hr] at hd
  · intro a h d hd
    by_cases hn : a.tool_notification
    · simp only [tool_definitions_for, h, if_false, hn, if_true, List.append_nil,
        List.mem_singleton, Bool.false_eq_true] at hd
      subst hd
      decide
    · simp [tool_definitions_for, h, hn] at hd
  · intro env a h
    simp [scrape_context_messages, h]
  · intro env a cmd program args h1 h2
    simp only [input_command_messages, h1, h2]
    cases henv : env.run_process program args <;> simp

/-- C4 witness: the gating clauses at concrete agents, and the
unconditional command execution at an agent whose `command` is set. -/
theorem c4_capability_gating_witness :
    (agentW4.tool_notification = false ∧ ToolDefinition.run_command.name ≠ "send_notification")
    ∧ (agentN4.tool_run_command = false ∧ ToolDefinition.notification.name ≠ "run_command")
    ∧ (agentW4.tool_website_scrape = false ∧ scrape_context_messages envW agentW4 = ([], []))
    ∧ (agentW4.command = some "uptime" ∧ split_whitespace "uptime" = ["uptime"]
       ∧ AgentEffect.ranInputCommand "uptime" [] ∈ (input_command_messages envW agentW4).2) :=
  ⟨⟨rfl, c4_capability_gating.1 agentW4 rfl ToolDefinition.run_command (by simp [tool_definitions_for, agentW4])⟩,
   ⟨rfl, c4_capability_gating.2.1 agentN4 rfl ToolDefinition.notification (by simp [tool_definitions_for, agentN4])⟩,
   ⟨rfl, c4_capability_gating.2.2.1 envW agentW4 rfl⟩,
   ⟨rfl, by decide,
    c4_capability_gating.2.2.2 envW agentW4 "uptime" "uptime" [] rfl (by decide)⟩⟩

set_option maxRecDepth 10000 in
/-- C5 counterexample: for an agent with `tool_run_command = true` and
`command = "uname -zz"`, the assembled system prompt does NOT contain the
command value — the claimed `"df -h"` instance only holds because
`"df -h"` is part of a hard-coded usage example, not because parameter
values are interpolated. -/
theorem c5_command_value_not_in_prompt :
    agentC5.tool_run_command = true
    ∧ agentC5.command = some "uname -zz"
    ∧ containsSub (build_system_prompt agentC5) "uname -zz" = false := by
  refine ⟨rfl, rfl, ?_⟩
  decide

set_option maxRecDepth 10000 in
/-- C5 (amended): the assembled system prompt is a pure function of the
config\x27s `prompt`, `tool_notification` and `tool_run_command` fields
alone — the `command`, `website_url`, `website_scrape_mode` and `model`
fields are never interpolated; whenever `tool_run_command` is enabled the
prompt contains the literal `"df -h"` (a hard-coded usage example,
whatever the configured command); and with both tool flags off the prompt
is exactly the base prompt, so it contains neither the run_command
description nor any added command text. -/
theorem c5_prompt_composition :
    (∀ (a : AgentApp) (m u sm c : Option String),
        build_system_prompt
          { a with model := m, website_url := u, website_scrape_mode := sm, command := c }
          = build_system_prompt a)
    ∧ (∀ a : AgentApp, a.tool_run_command = true →
        containsSub (build_system_prompt a) "df -h" = true)
    ∧ (∀ a : AgentApp, a.tool_notification = false → a.tool_run_command = false →
        build_system_prompt a = a.prompt) := by
  refine ⟨fun a m u sm c => rfl, ?_, ?_⟩
  · intro a h
    cases hn : a.tool_notification <;>
      simp only [build_system_prompt, tool_descriptions_for, h, hn, if_true, if_false,
        List.nil_append, List.append_nil, List.isEmpty, List.map, String.join,
        Bool.false_eq_true, ite_false, ite_true] <;>
    · apply containsSub_append_left
      apply containsSub_append_right
      decide
  · intro a h1 h2
    simp [build_system_prompt, tool_descriptions_for, h1, h2]

/-- C5 witness: the amended clauses at concrete configurations. -/
theorem c5_prompt_composition_witness :
    build_system_prompt { agentW5 with command := some "changed" } = build_system_prompt agentW5
    ∧ (agentW5.tool_run_command = true
       ∧ containsSub (build_system_prompt agentW5) "df -h" = true)
    ∧ (agentOffW.tool_notification = false ∧ agentOffW.tool_run_command = false
       ∧ build_system_prompt agentOffW = agentOffW.prompt) :=
  ⟨c5_prompt_composition.1 agentW5 agentW5.model agentW5.website_url agentW5.website_scrape_mode
     (some "changed"),
   ⟨rfl, c5_prompt_composition.2.1 agentW5 rfl⟩,
   ⟨rfl, rfl, c5_prompt_composition.2.2 agentOffW rfl rfl⟩⟩

/-- C6: whenever `execute_agent` issued two chat requests, the first
response\x27s first choice carried tool calls, and the second request\x27s
message list is exactly the first request\x27s list, then one
assistant-role message holding the first response\x27s content (empty
string if null), then one tool-role message per requested tool call in
order (success text or `Error: ...`), and the second request carries no
tool definitions. -/
theorem c6_second_request_shape (env : AgentEnv) (settings : AISettings) (agent : AgentApp)
    (h : (execute_agent env settings agent).chat_requests.length = 2) :
    ∃ req1 req2 response choice tool_calls,
      (execute_agent env settings agent).chat_requests = [req1, req2]
      ∧ env.chat req1 = .ok response
      ∧ response.choices.head? = some choice
      ∧ choice.message.tool_calls = some tool_calls
      ∧ req2.model = req1.model
      ∧ req2.tools = none
      ∧ req2.messages =
          req1.messages ++ [ChatMessage.mk "assistant" (choice.message.content.getD "")]
            ++ tool_calls.map (tool_result_message env) := by
  revert h
  rcases hrun : execute_agent env settings agent with ⟨res, evs, reqs, effs⟩
  intro h
  simp only [execute_agent] at hrun
  split at hrun
  · cases hrun; simp at h
  · split at hrun
    · cases hrun; simp at h
    · rename_i model hmodel
      split at hrun
      · cases hrun; simp at h
      · rename_i response hchat
        split at hrun
        · cases hrun; simp at h
        · rename_i choice hhead
          split at hrun
          · rename_i tool_calls htc
            simp only [tool_branch] at hrun
            split at hrun
            · cases hrun
              exact ⟨_, _, response, choice, tool_calls, rfl, hchat, hhead, htc, rfl, rfl, rfl⟩
            · split at hrun
              · cases hrun
                exact ⟨_, _, response, choice, tool_calls, rfl, hchat, hhead, htc, rfl, rfl, rfl⟩
              · cases hrun
                exact ⟨_, _, response, choice, tool_calls, rfl, hchat, hhead, htc, rfl, rfl, rfl⟩
          · cases hrun; simp at h

/-- C6 witness: a run that issued two chat requests (the `envC1`
scenario), with the second request\x27s shape given by the theorem. -/
theorem c6_second_request_shape_witness :
    (execute_agent envC1 settingsOn agentC1).chat_requests.length = 2
    ∧ ∃ req1 req2 response choice tool_calls,
        (execute_agent envC1 settingsOn agentC1).chat_requests = [req1, req2]
        ∧ envC1.chat req1 = .ok response
        ∧ response.choices.head? = some choice
        ∧ choice.message.tool_calls = some tool_calls
        ∧ req2.model = req1.model
        ∧ req2.tools = none
        ∧ req2.messages =
            req1.messages ++ [ChatMessage.mk "assistant" (choice.message.content.getD "")]
              ++ tool_calls.map (tool_result_message envC1) :=
  ⟨rfl, c6_second_request_shape envC1 settingsOn agentC1 rfl⟩

/-- C7: when the global AI settings have `enabled = false`,
`execute_agent` returns the AiDisabled error having performed no HTTP
call, written no queue row or status, and triggered no pre-execution
side effect — so the in-memory counters are untouched as well. -/
theorem c7_disabled_short_circuit (env : AgentEnv) (settings : AISettings) (agent : AgentApp)
    (h : settings.enabled = false) :
    execute_agent env settings agent =
      ⟨.error "AI features are not enabled", [], [], []⟩ := by
  simp [execute_agent, h]

/-- C7 witness: the disabled short-circuit at a concrete configuration. -/
theorem c7_disabled_short_circuit_witness :
    settingsOff.enabled = false
    ∧ execute_agent envW settingsOff agentC1 =
        ⟨.error "AI features are not enabled", [], [], []⟩ :=
  ⟨rfl, c7_disabled_short_circuit envW settingsOff agentC1 rfl⟩

/-- C8: a tool call whose arguments string fails to parse is treated as
the empty JSON object, and executing `send_notification` on it yields the
missing-`message` error, converted into the tool-role message
`Error: Missing 'message' argument` — the turn is not aborted. -/
theorem c8_lenient_arguments (env : AgentEnv) (tc : ToolCall)
    (hname : tc.function.name = "send_notification")
    (hparse : env.parse_args tc.function.arguments = none) :
    tool_result_message env tc = ⟨"tool", "Error: Missing \x27message\x27 argument"⟩ := by
  simp only [tool_result_message, hparse, hname, Option.getD, execute_tool, if_pos,
    execute_notification, Json.get, List.lookup, Option.bind]
  decide

/-- C8 witness: the malformed-JSON `send_notification` call of `tcC8`
under an environment whose parser rejects its arguments string. -/
theorem c8_lenient_arguments_witness :
    tcC8.function.name = "send_notification"
    ∧ envW.parse_args tcC8.function.arguments = none
    ∧ tool_result_message envW tcC8 = ⟨"tool", "Error: Missing \x27message\x27 argument"⟩ :=
  ⟨rfl, rfl, c8_lenient_arguments envW tcC8 rfl rfl⟩

/-- C9 counterexample: on a non-2xx response with body `boom`,
`fetch_models_from_endpoint` reports only the status code — the body
text is dropped from its error — while `chat_completion` does retain
it. -/
theorem c9_fetch_models_drops_body :
    fetch_models_from_endpoint_result ⟨500, "boom"⟩ decodeNoModels =
      .error "Failed to fetch models: 500"
    ∧ containsSub "Failed to fetch models: 500" "boom" = false
    ∧ chat_completion_result ⟨500, "boom"⟩ decodeNoChat =
        .error "Failed to get chat completion: 500 - boom" :=
  ⟨rfl, by decide, rfl⟩

/-- C9 (amended): for every non-2xx response, `chat_completion` retains
the response body text in its error (the error ends in the body), while
`fetch_models_from_endpoint` reports only the status code. -/
theorem c9_error_body_retention (resp : HttpResponse)
    (d1 : String → Option (List AIModel)) (d2 : String → Option ChatCompletionResponse)
    (h : status_is_success resp.status = false) :
    fetch_models_from_endpoint_result resp d1 =
      .error ("Failed to fetch models: " ++ toString resp.status)
    ∧ chat_completion_result resp d2 =
        .error (("Failed to get chat completion: " ++ toString resp.status ++ " - ") ++ resp.body) := by
  constructor <;> simp [fetch_models_from_endpoint_result, chat_completion_result, h]

/-- C9 witness: the amended error shapes at a concrete 404 response. -/
theorem c9_error_body_retention_witness :
    status_is_success 404 = false
    ∧ fetch_models_from_endpoint_result ⟨404, "nf"⟩ decodeNoModels =
        .error ("Failed to fetch models: " ++ toString (404 : Nat))
    ∧ chat_completion_result ⟨404, "nf"⟩ decodeNoChat =
        .error (("Failed to get chat completion: " ++ toString (404 : Nat) ++ " - ") ++ "nf") :=
  ⟨by decide,
   (c9_error_body_retention ⟨404, "nf"⟩ decodeNoModels decodeNoChat (by decide)).1,
   (c9_error_body_retention ⟨404, "nf"⟩ decodeNoModels decodeNoChat (by decide)).2⟩

/-- C10: calling `get_queue_manager` before `init_queue_manager` seeds
the once-cell with an empty holder and returns the NotInitialized error;
from then on `init_queue_manager` is a no-op on the already-set cell (the
inner `Option` is never written), so after any further sequence of
`get`/`init` calls, `get_queue_manager` still returns NotInitialized. -/
theorem c10_uninitialized_forever :
    (get_queue_manager ⟨none⟩).1 = .error "Queue manager not initialized"
    ∧ (get_queue_manager ⟨none⟩).2 = ⟨some none⟩
    ∧ init_queue_manager ⟨some none⟩ = ⟨some none⟩
    ∧ ∀ ops : List CellOp,
        (get_queue_manager (run_cell (get_queue_manager ⟨none⟩).2 ops)).1 =
          .error "Queue manager not initialized" :=
  ⟨rfl, rfl, rfl, fun ops => by
    rw [show (get_queue_manager ⟨none⟩).2 = ⟨some none⟩ from rfl, run_cell_empty_holder]
    rfl⟩

end JvLauncher